import Mathlib

/- Verification development for the Event-Driven Analytics & Audit API
   service bootstrap (src/main.py): the request-lifecycle logging middleware
   (log_requests), the OpenAPI schema augmentation (custom_openapi), the root
   endpoint and the 404 handler, shallowly embedded as pure Lean functions
   with all ambient state (request ids, clock readings, the schema cache,
   the log sink) passed explicitly. -/

set_option autoImplicit false

namespace EventAuditAPI

/-- JSON-like values: string leaves and objects, the shapes that appear in
the service's response bodies and OpenAPI schema fragments. Python dicts are
embedded as insertion-ordered association lists. -/
inductive JVal where
  | s (v : String)
  | obj (fields : List (String × JVal))

/-- A Python dict with string keys and JSON-like values. -/
abbrev Dict := List (String × JVal)

/-- Lookup in an association list, the embedding of Python dict subscripting
d[k] (first binding wins; Python dicts have unique keys, which insertion via
alistSet preserves). -/
def alistGet {β : Type} : List (String × β) → String → Option β
  | [], _ => none
  | (k, v) :: rest, key => if k = key then some v else alistGet rest key

/-- Membership test, the embedding of Python's `k in d`. -/
def alistHas {β : Type} (d : List (String × β)) (key : String) : Bool :=
  (alistGet d key).isSome

/-- Assignment d[k] = v on an association list, the embedding of Python dict
item assignment: overwrite in place if the key is present, append otherwise. -/
def alistSet {β : Type} : List (String × β) → String → β → List (String × β)
  | [], key, val => [(key, val)]
  | (k, v) :: rest, key, val =>
      if k = key then (k, val) :: rest else (k, v) :: alistSet rest key val

theorem alistGet_set_self {β : Type} (d : List (String × β)) (key : String) (val : β) :
    alistGet (alistSet d key val) key = some val := by
  induction d with
  | nil => simp [alistSet, alistGet]
  | cons p rest ih =>
      obtain ⟨k, v⟩ := p
      by_cases h : k = key
      · simp [alistSet, alistGet, h]
      · simp [alistSet, alistGet, h, ih]

theorem alistGet_set_ne {β : Type} (d : List (String × β)) (key key' : String) (val : β)
    (h : key' ≠ key) : alistGet (alistSet d key val) key' = alistGet d key' := by
  induction d with
  | nil =>
      have hk : ¬ key = key' := fun hkk => h hkk.symm
      simp [alistSet, alistGet, hk]
  | cons p rest ih =>
      obtain ⟨k, v⟩ := p
      by_cases hk : k = key
      · have hk2 : ¬ k = key' := fun hkk => h (hkk.symm.trans hk)
        subst hk
        simp [alistSet, alistGet, hk2]
      · by_cases hk2 : k = key'
        · subst hk2
          simp [alistSet, alistGet, hk, ih]
        · simp [alistSet, alistGet, hk, hk2, ih]

theorem alistSet_ne_nil {β : Type} (d : List (String × β)) (key : String) (val : β) :
    alistSet d key val ≠ [] := by
  cases d with
  | nil => simp [alistSet]
  | cons p rest =>
      obtain ⟨k, v⟩ := p
      by_cases h : k = key <;> simp [alistSet, h]

theorem alistHas_set {β : Type} (d : List (String × β)) (key key' : String) (val : β)
    (h : alistHas d key' = true) : alistHas (alistSet d key val) key' = true := by
  by_cases hk : key' = key
  · subst hk
    simp [alistHas, alistGet_set_self]
  · simpa [alistHas, alistGet_set_ne d key key' val hk] using h

/-- Embedding of the Python idiom `if k not in d: d[k] = v` used at
src/main.py lines 121-122 and 125-126. -/
def ensureKey (d : Dict) (key : String) (val : JVal) : Dict :=
  if alistHas d key then d else alistSet d key val

theorem ensureKey_of_has (d : Dict) (key : String) (val : JVal)
    (h : alistHas d key = true) : ensureKey d key val = d := by
  simp [ensureKey, h]

theorem ensureKey_get_ne (d : Dict) (key key' : String) (val : JVal)
    (h : key' ≠ key) : alistGet (ensureKey d key val) key' = alistGet d key' := by
  by_cases hh : alistHas d key
  · simp [ensureKey, hh]
  · simp [ensureKey, hh, alistGet_set_ne d key key' val h]

theorem ensureKey_has (d : Dict) (key key' : String) (val : JVal)
    (h : alistHas d key' = true) : alistHas (ensureKey d key val) key' = true := by
  by_cases hh : alistHas d key
  · simpa [ensureKey, hh] using h
  · simpa [ensureKey, hh] using alistHas_set d key key' val h

/-- The fixed HTTP bearer/JWT security descriptor inserted by custom_openapi
(src/main.py lines 128-133). -/
def bearerAuthScheme : JVal :=
  .obj [("type", .s "http"),
        ("scheme", .s "bearer"),
        ("bearerFormat", .s "JWT"),
        ("description",
         .s "API Key as Bearer token. Create one at POST /api/v1/keys/ (first key doesn\x27t require auth)")]

/-- Embedding of the augmentation step of custom_openapi (src/main.py lines
120-133): create the components container if absent, create securitySchemes
within it if absent, then assign bearerAuth. Returns none exactly when Python
would raise a TypeError, i.e. when an existing components or securitySchemes
entry is not a dict (the framework-generated base schema always has dicts
there). -/
def custom_openapi_augment (schema0 : Dict) : Option Dict :=
  let schema1 := ensureKey schema0 "components" (.obj [])
  match alistGet schema1 "components" with
  | some (.obj comps0) =>
      let comps1 := ensureKey comps0 "securitySchemes" (.obj [])
      match alistGet comps1 "securitySchemes" with
      | some (.obj ss0) =>
          some (alistSet schema1 "components"
                 (.obj (alistSet comps1 "securitySchemes"
                   (.obj (alistSet ss0 "bearerAuth" bearerAuthScheme)))))
      | _ => none
  | _ => none

/-- Truthiness of the cache cell app.openapi_schema as Python evaluates it at
src/main.py line 110: None and the empty dict are falsy. -/
def cacheTruthy : Option Dict → Bool
  | some d => !d.isEmpty
  | none => false

/-- Embedding of custom_openapi (src/main.py lines 108-136) with the
process-wide cache app.openapi_schema passed as explicit state (none models
Python None, its initial value). base is the schema produced by the
framework's get_openapi introspection on the first call. Returns the schema
handed to the caller together with the new cache state, or none when the
augmentation would raise. -/
def custom_openapi (cache : Option Dict) (base : Dict) : Option (Dict × Option Dict) :=
  if cacheTruthy cache then
    cache.map (fun s => (s, cache))
  else
    (custom_openapi_augment base).map (fun s => (s, some s))

/-- Zero-pad a decimal digit string on the left to width n, as Python's
fixed-width integer formatting does inside isoformat and percent-style
formats. -/
def padZeros (n : Nat) (s : String) : String :=
  if s.length < n then String.mk (List.replicate (n - s.length) '0') ++ s else s

/-- Rendering of a duration with three decimal places, the embedding of the
format specifier .3f applied at src/main.py lines 73 and 84. Wall-clock
instants from time.time() are modelled as exact rationals, so rounding to
the nearest thousandth stands in for binary floating-point rounding. -/
def fmt3 (q : ℚ) : String :=
  let n : Int := round (q * 1000)
  let sign := if n < 0 then "-" else ""
  let m := n.natAbs
  sign ++ toString (m / 1000) ++ "." ++ padZeros 3 (toString (m % 1000))

/-- A UTC datetime as produced by datetime.utcnow() (src/main.py lines 93,
152, 165), with the fields isoformat reads. -/
structure DateTime where
  year : Nat
  month : Nat
  day : Nat
  hour : Nat
  minute : Nat
  second : Nat
  microsecond : Nat

/-- Embedding of datetime.isoformat(): YYYY-MM-DDTHH:MM:SS, with a
.ffffff fraction appended exactly when the microsecond field is nonzero. -/
def DateTime.isoformat (d : DateTime) : String :=
  padZeros 4 (toString d.year) ++ "-" ++ padZeros 2 (toString d.month) ++ "-" ++
  padZeros 2 (toString d.day) ++ "T" ++ padZeros 2 (toString d.hour) ++ ":" ++
  padZeros 2 (toString d.minute) ++ ":" ++ padZeros 2 (toString d.second) ++
  (if d.microsecond = 0 then "" else "." ++ padZeros 6 (toString d.microsecond))

/-- The parts of the inbound request the middleware and handlers read:
request.method and request.url.path. -/
structure Request where
  method : String
  path : String

/-- An HTTP response: status code, mutable header map, JSON body. -/
structure Response where
  status_code : Nat
  headers : List (String × String)
  body : JVal

/-- Log severities used by the middleware: logger.info on the normal path,
logger.error on the exception path. -/
inductive LogLevel where
  | info
  | error
deriving DecidableEq

/-- One structured log line: the severity and the fully formatted message
handed to the logger call. -/
structure LogLine where
  level : LogLevel
  message : String

/-- The message of the INFO line at src/main.py lines 70-75. -/
def infoMessage (method path : String) (status : Nat) (duration : ℚ) (rid : String) : String :=
  method ++ " " ++ path ++ " - Status: " ++ toString status ++ " - Duration: " ++
  fmt3 duration ++ "s - Request ID: " ++ rid

/-- The message of the ERROR line at src/main.py lines 81-86; exc is str(e)
for the caught exception. -/
def errorMessage (exc method path : String) (duration : ℚ) (rid : String) : String :=
  "Unhandled exception: " ++ exc ++ " - " ++ method ++ " " ++ path ++ " - Duration: " ++
  fmt3 duration ++ "s - Request ID: " ++ rid

/-- Behaviour of one logger call: none means the call returns normally, some
msg means the call itself raises an exception whose str() is msg. -/
abbrev LogSink := LogLine → Option String

/-- What one middleware invocation produces: either the response it returns
or the exception (by message) that escapes it, together with the log lines
whose logger calls completed. -/
structure MwOutcome where
  result : Except String Response
  emitted : List LogLine

/-- The JSON body of the synthesized 500 response (src/main.py lines 90-94). -/
def errorBody (rid : String) (utcnow : DateTime) : JVal :=
  .obj [("detail", .s "Internal server error"),
        ("request_id", .s rid),
        ("timestamp", .s utcnow.isoformat)]

/-- Embedding of the except branch of log_requests (src/main.py lines
79-95): recompute the duration at tErr, log at ERROR, then return the
synthesized 500 JSONResponse — note that no X-Request-ID header is set on
it. If the logger call itself raises, that exception escapes the middleware
uncaught. -/
def exceptBranch (req : Request) (rid : String) (start tErr : ℚ) (utcnow : DateTime)
    (sink : LogSink) (exc : String) : MwOutcome :=
  let line : LogLine := ⟨.error, errorMessage exc req.method req.path (tErr - start) rid⟩
  match sink line with
  | some e2 => ⟨.error e2, []⟩
  | none => ⟨.ok ⟨500, [], errorBody rid utcnow⟩, [line]⟩

/-- Embedding of the log_requests middleware (src/main.py lines 53-95), with
all ambient effects passed explicitly: rid is the uuid4 string generated at
line 56; start, tSucc and tErr are the time.time() readings at lines 57, 69
and 80; utcnow is datetime.utcnow() at line 93; callNext is the outcome of
awaiting call_next (Except.error carries str(e) of an exception escaping the
downstream chain); sink says whether each logger call returns or raises. On
the normal path the X-Request-ID header is set on the downstream response
and one INFO line is logged; if that logger call raises, control transfers
to the except branch with the logging exception as the caught e, discarding
the downstream response. -/
def log_requests (req : Request) (rid : String) (start tSucc tErr : ℚ) (utcnow : DateTime)
    (callNext : Except String Response) (sink : LogSink) : MwOutcome :=
  match callNext with
  | .error e => exceptBranch req rid start tErr utcnow sink e
  | .ok resp =>
      let resp1 : Response := { resp with headers := alistSet resp.headers "X-Request-ID" rid }
      let line : LogLine := ⟨.info, infoMessage req.method req.path resp1.status_code (tSucc - start) rid⟩
      match sink line with
      | none => ⟨.ok resp1, [line]⟩
      | some e1 => exceptBranch req rid start tErr utcnow sink e1

/-- Modelled from the spec: the Structured Logger obtained from
app.core.logger.get_logger (module app.core.logger is not part of this
source slice), in its healthy behaviour — every logger call returns
normally. Used as the benign sink in concrete witnesses; sinks whose calls
raise are modelled separately to study the middleware's failure behaviour. -/
def specLoggerSink : LogSink := fun _ => none

/-- Embedding of the root endpoint (src/main.py lines 143-153). The handler
returns a dict, which the framework serializes as the JSON body of a 200
response; api_title and api_version are settings.API_TITLE and
settings.API_VERSION from the out-of-slice configuration module. -/
def root (api_title api_version : String) (utcnow : DateTime) : Response :=
  ⟨200, [],
   .obj [("name", .s api_title),
         ("version", .s api_version),
         ("status", .s "operational"),
         ("docs", .s "/docs"),
         ("health", .s "/api/v1/health"),
         ("timestamp", .s utcnow.isoformat)]⟩

/-- Embedding of the 404 handler (src/main.py lines 157-167). -/
def not_found_handler (req : Request) (utcnow : DateTime) : Response :=
  ⟨404, [],
   .obj [("detail", .s "Endpoint not found"),
         ("path", .s req.path),
         ("timestamp", .s utcnow.isoformat)]⟩

/-- Helper: the augmented schema is never the empty dict (it always contains
a components entry), so the cache cell holding it is truthy on later calls. -/
theorem custom_openapi_augment_ne_nil (base s : Dict)
    (h : custom_openapi_augment base = some s) : s ≠ [] := by
  simp only [custom_openapi_augment] at h
  split at h
  · split at h
    · injection h with h
      exact h ▸ alistSet_ne_nil _ _ _
    · cases h
  · cases h

/-- C3: for every base schema (on which the augmentation completes, i.e. the
components and securitySchemes entries, when present, are dicts as the
framework guarantees), the augmentation removes or overwrites no pre-existing
top-level key: every key of the base stays present, every top-level key other
than components keeps its value, and inside components every key other than
securitySchemes keeps its value; the components container and the
securitySchemes container within it are created if absent; and the result
contains components.securitySchemes.bearerAuth with type http, scheme bearer,
bearerFormat JWT. -/
theorem C3_augmentation_frame (base out : Dict)
    (h : custom_openapi_augment base = some out) :
    (∀ k, alistHas base k = true → alistHas out k = true) ∧
    (∀ k, k ≠ "components" → alistGet out k = alistGet base k) ∧
    ∃ comps, alistGet out "components" = some (.obj comps) ∧
      (∀ cb, alistGet base "components" = some (.obj cb) →
        ∀ k, k ≠ "securitySchemes" → alistGet comps k = alistGet cb k) ∧
      ∃ ss, alistGet comps "securitySchemes" = some (.obj ss) ∧
        ∃ ba, alistGet ss "bearerAuth" = some (.obj ba) ∧
          alistGet ba "type" = some (.s "http") ∧
          alistGet ba "scheme" = some (.s "bearer") ∧
          alistGet ba "bearerFormat" = some (.s "JWT") := by
  simp only [custom_openapi_augment] at h
  split at h
  · split at h
    · rename_i comps0 hg x2 ss0 hs
      clear x2
      injection h with h
      subst h
      refine ⟨?_, ?_, ?_⟩
      · intro k hk
        by_cases hkc : k = "components"
        · subst hkc
          simp [alistHas, alistGet_set_self]
        · simp only [alistHas] at hk ⊢
          rw [alistGet_set_ne _ _ _ _ hkc, ensureKey_get_ne _ _ _ _ hkc]
          exact hk
      · intro k hkc
        rw [alistGet_set_ne _ _ _ _ hkc, ensureKey_get_ne _ _ _ _ hkc]
      · refine ⟨_, alistGet_set_self _ _ _, ?_, _, alistGet_set_self _ _ _, ?_⟩
        · intro cb hcb k hks
          have hhas : alistHas base "components" = true := by
            simp [alistHas, hcb]
          rw [ensureKey_of_has base "components" (.obj []) hhas] at hg
          rw [hcb] at hg
          injection hg with hg
          injection hg with hg
          subst hg
          rw [alistGet_set_ne _ _ _ _ hks, ensureKey_get_ne _ _ _ _ hks]
        · exact ⟨_, alistGet_set_self _ _ _, rfl, rfl, rfl⟩
    · cases h
  · cases h

/-- A concrete base schema for the C3 witness: top-level keys openapi, paths
and a components dict already holding schemas. -/
def c3Base : Dict :=
  [("openapi", .s "3.1.0"), ("paths", .obj []),
   ("components", .obj [("schemas", .obj [("Item", .obj [])])])]

/-- The augmented form of c3Base. -/
def c3Out : Dict :=
  [("openapi", .s "3.1.0"), ("paths", .obj []),
   ("components",
    .obj [("schemas", .obj [("Item", .obj [])]),
          ("securitySchemes", .obj [("bearerAuth", bearerAuthScheme)])])]

/-- Witness for C3 at the concrete base schema c3Base. -/
theorem C3_augmentation_frame_witness :
    custom_openapi_augment c3Base = some c3Out ∧
    ((∀ k, alistHas c3Base k = true → alistHas c3Out k = true) ∧
     (∀ k, k ≠ "components" → alistGet c3Out k = alistGet c3Base k) ∧
     ∃ comps, alistGet c3Out "components" = some (.obj comps) ∧
       (∀ cb, alistGet c3Base "components" = some (.obj cb) →
         ∀ k, k ≠ "securitySchemes" → alistGet comps k = alistGet cb k) ∧
       ∃ ss, alistGet comps "securitySchemes" = some (.obj ss) ∧
         ∃ ba, alistGet ss "bearerAuth" = some (.obj ba) ∧
           alistGet ba "type" = some (.s "http") ∧
           alistGet ba "scheme" = some (.s "bearer") ∧
           alistGet ba "bearerFormat" = some (.s "JWT")) :=
  ⟨rfl, C3_augmentation_frame c3Base c3Out rfl⟩

/-- C4: the schema getter is idempotent. Starting from the empty cache
(app.openapi_schema is None), the first call builds the augmented schema and
caches it, and a subsequent call — whatever base schema the framework would
now derive, since it is never recomputed — returns the cached schema
unchanged and leaves the cache unchanged. -/
theorem C4_schema_cache_idempotent (base base2 s : Dict)
    (h : custom_openapi_augment base = some s) :
    custom_openapi none base = some (s, some s) ∧
    custom_openapi (some s) base2 = some (s, some s) := by
  constructor
  · simp [custom_openapi, cacheTruthy, h]
  · have hne : s ≠ [] := custom_openapi_augment_ne_nil base s h
    simp [custom_openapi, cacheTruthy, List.isEmpty_iff, hne]

/-- A concrete base schema for the C4 witness. -/
def c4Base : Dict := [("paths", .obj [])]

/-- The augmented form of c4Base, which the first call caches. -/
def c4Out : Dict :=
  [("paths", .obj []),
   ("components", .obj [("securitySchemes", .obj [("bearerAuth", bearerAuthScheme)])])]

/-- A different base schema handed to the second C4 call, to exhibit that the
cached result does not depend on it. -/
def c4Base2 : Dict := [("other", .s "base")]

/-- Witness for C4 at the concrete schemas c4Base and c4Base2. -/
theorem C4_schema_cache_idempotent_witness :
    custom_openapi_augment c4Base = some c4Out ∧
    (custom_openapi none c4Base = some (c4Out, some c4Out) ∧
     custom_openapi (some c4Out) c4Base2 = some (c4Out, some c4Out)) :=
  ⟨rfl, C4_schema_cache_idempotent c4Base c4Base2 c4Out rfl⟩

/-- C10: when the base schema already holds an entry under
components.securitySchemes.bearerAuth — whatever its previous value v — the
augmentation assigns the bearerAuth key unconditionally, so afterwards
bearerAuth equals the fixed HTTP bearer/JWT descriptor. -/
theorem C10_bearerAuth_overwritten (base cb ss : Dict) (v : JVal)
    (hc : alistGet base "components" = some (.obj cb))
    (hcs : alistGet cb "securitySchemes" = some (.obj ss))
    (hb : alistGet ss "bearerAuth" = some v) :
    ∃ out, custom_openapi_augment base = some out ∧
      ∃ comps ss2, alistGet out "components" = some (.obj comps) ∧
        alistGet comps "securitySchemes" = some (.obj ss2) ∧
        alistGet ss2 "bearerAuth" = some bearerAuthScheme := by
  have hhas : alistHas base "components" = true := by simp [alistHas, hc]
  have hhas2 : alistHas cb "securitySchemes" = true := by simp [alistHas, hcs]
  have key : custom_openapi_augment base =
      some (alistSet base "components"
        (.obj (alistSet cb "securitySchemes"
          (.obj (alistSet ss "bearerAuth" bearerAuthScheme))))) := by
    simp only [custom_openapi_augment, ensureKey_of_has base "components" (.obj []) hhas, hc,
      ensureKey_of_has cb "securitySchemes" (.obj []) hhas2, hcs]
  exact ⟨_, key, _, _, alistGet_set_self _ _ _, alistGet_set_self _ _ _,
    alistGet_set_self _ _ _⟩

/-- A concrete base schema for the C10 witness, whose bearerAuth previously
held the string value old. -/
def c10Base : Dict :=
  [("components", .obj [("securitySchemes", .obj [("bearerAuth", .s "old")])])]

/-- The components dict of c10Base. -/
def c10Comps : Dict := [("securitySchemes", .obj [("bearerAuth", .s "old")])]

/-- The securitySchemes dict of c10Base. -/
def c10Schemes : Dict := [("bearerAuth", .s "old")]

/-- Witness for C10 at the concrete schema c10Base. -/
theorem C10_bearerAuth_overwritten_witness :
    alistGet c10Base "components" = some (.obj c10Comps) ∧
    alistGet c10Comps "securitySchemes" = some (.obj c10Schemes) ∧
    alistGet c10Schemes "bearerAuth" = some (.s "old") ∧
    ∃ out, custom_openapi_augment c10Base = some out ∧
      ∃ comps ss2, alistGet out "components" = some (.obj comps) ∧
        alistGet comps "securitySchemes" = some (.obj ss2) ∧
        alistGet ss2 "bearerAuth" = some bearerAuthScheme :=
  ⟨rfl, rfl, rfl, C10_bearerAuth_overwritten c10Base c10Comps c10Schemes (.s "old") rfl rfl rfl⟩

/-- C1 as stated is refuted on the failure path at a concrete input: the
downstream handler raises, exactly one log line is emitted, yet the
synthesized 500 response carries no X-Request-ID header at all (the header is
only set on the success path at src/main.py line 66; the JSONResponse built
at lines 88-95 gets none). -/
theorem C1_counterexample :
    (log_requests ⟨"GET", "/items"⟩ "id-1" 0 0 0 ⟨2025, 1, 1, 0, 0, 0, 0⟩
        (.error "boom") specLoggerSink).result
      = .ok ⟨500, [], errorBody "id-1" ⟨2025, 1, 1, 0, 0, 0, 0⟩⟩ ∧
    (log_requests ⟨"GET", "/items"⟩ "id-1" 0 0 0 ⟨2025, 1, 1, 0, 0, 0, 0⟩
        (.error "boom") specLoggerSink).emitted.length = 1 ∧
    alistGet (Response.mk 500 [] (errorBody "id-1" ⟨2025, 1, 1, 0, 0, 0, 0⟩)).headers
        "X-Request-ID" = none :=
  ⟨rfl, rfl, rfl⟩

/-- C1 amended: for every request on which the logger calls return normally,
the middleware emits exactly one structured log line referencing the
correlation ID; on normal return of the downstream handler the response
carries an X-Request-ID header equal to that ID, but on the failure path the
synthesized 500 response does not carry the X-Request-ID header (its header
map is empty). -/
theorem C1_one_log_line_header_on_success (req : Request) (rid : String)
    (start tSucc tErr : ℚ) (utcnow : DateTime) (callNext : Except String Response)
    (sink : LogSink) (hs : ∀ l, sink l = none) :
    (log_requests req rid start tSucc tErr utcnow callNext sink).emitted.length = 1 ∧
    (∀ resp, callNext = .ok resp →
      (log_requests req rid start tSucc tErr utcnow callNext sink).result =
        .ok { resp with headers := alistSet resp.headers "X-Request-ID" rid } ∧
      alistGet (alistSet resp.headers "X-Request-ID" rid) "X-Request-ID" = some rid ∧
      (log_requests req rid start tSucc tErr utcnow callNext sink).emitted =
        [⟨.info, infoMessage req.method req.path resp.status_code (tSucc - start) rid⟩]) ∧
    (∀ e, callNext = .error e →
      (log_requests req rid start tSucc tErr utcnow callNext sink).result =
        .ok ⟨500, [], errorBody rid utcnow⟩ ∧
      alistGet (Response.mk 500 [] (errorBody rid utcnow)).headers "X-Request-ID" = none ∧
      (log_requests req rid start tSucc tErr utcnow callNext sink).emitted =
        [⟨.error, errorMessage e req.method req.path (tErr - start) rid⟩]) := by
  refine ⟨?_, ?_, ?_⟩
  · cases callNext with
    | ok resp => simp [log_requests, hs]
    | error e => simp [log_requests, exceptBranch, hs]
  · intro resp hr
    subst hr
    exact ⟨by simp [log_requests, hs], alistGet_set_self _ _ _, by simp [log_requests, hs]⟩
  · intro e hr
    subst hr
    exact ⟨by simp [log_requests, exceptBranch, hs], rfl,
      by simp [log_requests, exceptBranch, hs]⟩

/-- Witness for the amended C1 on the success path at a concrete request. -/
theorem C1_one_log_line_header_on_success_witness :
    (∀ l : LogLine, specLoggerSink l = none) ∧
    ((log_requests ⟨"GET", "/"⟩ "id-2" 0 1 1 ⟨2025, 1, 1, 0, 0, 0, 0⟩
        (.ok ⟨200, [], .obj []⟩) specLoggerSink).emitted.length = 1 ∧
     (∀ resp, (Except.ok ⟨200, [], .obj []⟩ : Except String Response) = .ok resp →
       (log_requests ⟨"GET", "/"⟩ "id-2" 0 1 1 ⟨2025, 1, 1, 0, 0, 0, 0⟩
           (.ok ⟨200, [], .obj []⟩) specLoggerSink).result =
         .ok { resp with headers := alistSet resp.headers "X-Request-ID" "id-2" } ∧
       alistGet (alistSet resp.headers "X-Request-ID" "id-2") "X-Request-ID" = some "id-2" ∧
       (log_requests ⟨"GET", "/"⟩ "id-2" 0 1 1 ⟨2025, 1, 1, 0, 0, 0, 0⟩
           (.ok ⟨200, [], .obj []⟩) specLoggerSink).emitted =
         [⟨.info, infoMessage "GET" "/" resp.status_code ((1 : ℚ) - 0) "id-2"⟩]) ∧
     (∀ e, (Except.ok ⟨200, [], .obj []⟩ : Except String Response) = .error e →
       (log_requests ⟨"GET", "/"⟩ "id-2" 0 1 1 ⟨2025, 1, 1, 0, 0, 0, 0⟩
           (.ok ⟨200, [], .obj []⟩) specLoggerSink).result =
         .ok ⟨500, [], errorBody "id-2" ⟨2025, 1, 1, 0, 0, 0, 0⟩⟩ ∧
       alistGet (Response.mk 500 []
           (errorBody "id-2" ⟨2025, 1, 1, 0, 0, 0, 0⟩)).headers "X-Request-ID" = none ∧
       (log_requests ⟨"GET", "/"⟩ "id-2" 0 1 1 ⟨2025, 1, 1, 0, 0, 0, 0⟩
           (.ok ⟨200, [], .obj []⟩) specLoggerSink).emitted =
         [⟨.error, errorMessage e "GET" "/" ((1 : ℚ) - 0) "id-2"⟩])) :=
  ⟨fun _ => rfl,
   C1_one_log_line_header_on_success ⟨"GET", "/"⟩ "id-2" 0 1 1 ⟨2025, 1, 1, 0, 0, 0, 0⟩
     (.ok ⟨200, [], .obj []⟩) specLoggerSink (fun _ => rfl)⟩

/-- C2: on every unhandled failure from the downstream chain (with the ERROR
logger call returning normally), the middleware returns status exactly 500
with JSON body whose detail is the fixed string Internal server error — for
every raised message e, never e itself — whose request_id equals the
correlation ID referenced in the single ERROR log line of that request, and
whose timestamp is the isoformat rendering of the current UTC datetime (the
embedding of datetime.utcnow().isoformat()). -/
theorem C2_error_response_contract (req : Request) (rid : String)
    (start tSucc tErr : ℚ) (utcnow : DateTime) (e : String) (sink : LogSink)
    (hs : sink ⟨.error, errorMessage e req.method req.path (tErr - start) rid⟩ = none) :
    ∃ r : Response,
      (log_requests req rid start tSucc tErr utcnow (.error e) sink).result = .ok r ∧
      r.status_code = 500 ∧
      (∃ b, r.body = .obj b ∧
        alistGet b "detail" = some (.s "Internal server error") ∧
        alistGet b "request_id" = some (.s rid) ∧
        alistGet b "timestamp" = some (.s utcnow.isoformat)) ∧
      (log_requests req rid start tSucc tErr utcnow (.error e) sink).emitted =
        [⟨.error, errorMessage e req.method req.path (tErr - start) rid⟩] := by
  refine ⟨⟨500, [], errorBody rid utcnow⟩, ?_, rfl, ⟨_, rfl, rfl, rfl, rfl⟩, ?_⟩ <;>
    simp [log_requests, exceptBranch, hs]

/-- Witness for C2 at a concrete request whose handler raises boom. -/
theorem C2_error_response_contract_witness :
    specLoggerSink
        ⟨.error, errorMessage "boom" "POST" "/api/v1/events" ((7 : ℚ) - 5) "id-3"⟩ = none ∧
    ∃ r : Response,
      (log_requests ⟨"POST", "/api/v1/events"⟩ "id-3" 5 6 7 ⟨2025, 2, 3, 4, 5, 6, 7⟩
          (.error "boom") specLoggerSink).result = .ok r ∧
      r.status_code = 500 ∧
      (∃ b, r.body = .obj b ∧
        alistGet b "detail" = some (.s "Internal server error") ∧
        alistGet b "request_id" = some (.s "id-3") ∧
        alistGet b "timestamp" = some (.s (DateTime.isoformat ⟨2025, 2, 3, 4, 5, 6, 7⟩))) ∧
      (log_requests ⟨"POST", "/api/v1/events"⟩ "id-3" 5 6 7 ⟨2025, 2, 3, 4, 5, 6, 7⟩
          (.error "boom") specLoggerSink).emitted =
        [⟨.error, errorMessage "boom" "POST" "/api/v1/events" ((7 : ℚ) - 5) "id-3"⟩] :=
  ⟨rfl, C2_error_response_contract ⟨"POST", "/api/v1/events"⟩ "id-3" 5 6 7
    ⟨2025, 2, 3, 4, 5, 6, 7⟩ "boom" specLoggerSink rfl⟩

/-- A log sink whose INFO calls raise (as when the sink device is down) but
whose ERROR calls return, used to exhibit the middleware's behaviour when
logger.info at src/main.py line 70 raises. -/
def c5RaisingSink : LogSink := fun l =>
  match l.level with
  | .info => some "log sink unavailable"
  | .error => none

/-- A log sink all of whose calls raise, used to exhibit the middleware's
behaviour when every logger call fails. -/
def c5DeadSink : LogSink := fun _ => some "log sink unavailable"

/-- C5 as stated is refuted at concrete inputs: when a log call raises, the
request does not return the response the handler produced. With a sink whose
INFO call raises, a handler-produced 200 is discarded and the synthesized 500
comes back (the logging exception is the e caught by the except block at
src/main.py line 79); with a sink whose ERROR call also raises, the exception
escapes the middleware and no response is returned at all, on the success
path as well as on the failure path. -/
theorem C5_counterexample :
    (log_requests ⟨"GET", "/"⟩ "id-6" 0 1 2 ⟨2025, 1, 1, 0, 0, 0, 0⟩
        (.ok ⟨200, [], .obj []⟩) c5RaisingSink).result =
      .ok ⟨500, [], errorBody "id-6" ⟨2025, 1, 1, 0, 0, 0, 0⟩⟩ ∧
    (log_requests ⟨"GET", "/"⟩ "id-6" 0 1 2 ⟨2025, 1, 1, 0, 0, 0, 0⟩
        (.ok ⟨200, [], .obj []⟩) c5DeadSink).result = .error "log sink unavailable" ∧
    (log_requests ⟨"GET", "/"⟩ "id-6" 0 1 2 ⟨2025, 1, 1, 0, 0, 0, 0⟩
        (.error "boom") c5DeadSink).result = .error "log sink unavailable" :=
  ⟨rfl, rfl, rfl⟩

/-- C5 amended: the middleware does not swallow logging failures, so a
failure of the logging sink can fail the request. The handler's response is
returned exactly when the INFO log call returns normally; if the INFO call
raises, the handler's response is discarded — the except block runs with the
logging exception as the caught e, and if the ERROR log call then returns
normally the middleware returns the synthesized 500 instead; if the ERROR
log call raises (on either path), that exception propagates out of the
middleware and no response is returned. -/
theorem C5_logging_failure_not_swallowed (req : Request) (rid : String)
    (start tSucc tErr : ℚ) (utcnow : DateTime) (resp : Response) (e e1 e2 : String)
    (sink : LogSink) :
    (sink ⟨.info, infoMessage req.method req.path resp.status_code (tSucc - start) rid⟩
        = none →
      (log_requests req rid start tSucc tErr utcnow (.ok resp) sink).result =
        .ok { resp with headers := alistSet resp.headers "X-Request-ID" rid }) ∧
    (sink ⟨.info, infoMessage req.method req.path resp.status_code (tSucc - start) rid⟩
        = some e1 →
      sink ⟨.error, errorMessage e1 req.method req.path (tErr - start) rid⟩ = none →
      (log_requests req rid start tSucc tErr utcnow (.ok resp) sink).result =
        .ok ⟨500, [], errorBody rid utcnow⟩) ∧
    (sink ⟨.info, infoMessage req.method req.path resp.status_code (tSucc - start) rid⟩
        = some e1 →
      sink ⟨.error, errorMessage e1 req.method req.path (tErr - start) rid⟩ = some e2 →
      (log_requests req rid start tSucc tErr utcnow (.ok resp) sink).result = .error e2) ∧
    (sink ⟨.error, errorMessage e req.method req.path (tErr - start) rid⟩ = some e2 →
      (log_requests req rid start tSucc tErr utcnow (.error e) sink).result = .error e2) := by
  refine ⟨?_, ?_, ?_, ?_⟩
  · intro h1
    simp [log_requests, h1]
  · intro h1 h2
    simp [log_requests, exceptBranch, h1, h2]
  · intro h1 h2
    simp [log_requests, exceptBranch, h1, h2]
  · intro h2
    simp [log_requests, exceptBranch, h2]

/-- Witness for the amended C5, discharging each of its conditionals at
concrete inputs: a healthy sink returns the handler response; a sink raising
on INFO turns a handler 200 into the 500; a sink raising on everything makes
the logging exception escape, on both paths. -/
theorem C5_logging_failure_not_swallowed_witness :
    (specLoggerSink ⟨.info, infoMessage "GET" "/" 200 ((1 : ℚ) - 0) "id-6"⟩ = none ∧
     (log_requests ⟨"GET", "/"⟩ "id-6" 0 1 2 ⟨2025, 1, 1, 0, 0, 0, 0⟩
         (.ok ⟨200, [], .obj []⟩) specLoggerSink).result =
       .ok ⟨200, [("X-Request-ID", "id-6")], .obj []⟩) ∧
    (c5RaisingSink ⟨.info, infoMessage "GET" "/" 200 ((1 : ℚ) - 0) "id-6"⟩ =
        some "log sink unavailable" ∧
     c5RaisingSink
        ⟨.error, errorMessage "log sink unavailable" "GET" "/" ((2 : ℚ) - 0) "id-6"⟩
        = none ∧
     (log_requests ⟨"GET", "/"⟩ "id-6" 0 1 2 ⟨2025, 1, 1, 0, 0, 0, 0⟩
         (.ok ⟨200, [], .obj []⟩) c5RaisingSink).result =
       .ok ⟨500, [], errorBody "id-6" ⟨2025, 1, 1, 0, 0, 0, 0⟩⟩) ∧
    (c5DeadSink ⟨.info, infoMessage "GET" "/" 200 ((1 : ℚ) - 0) "id-6"⟩ =
        some "log sink unavailable" ∧
     c5DeadSink
        ⟨.error, errorMessage "log sink unavailable" "GET" "/" ((2 : ℚ) - 0) "id-6"⟩
        = some "log sink unavailable" ∧
     (log_requests ⟨"GET", "/"⟩ "id-6" 0 1 2 ⟨2025, 1, 1, 0, 0, 0, 0⟩
         (.ok ⟨200, [], .obj []⟩) c5DeadSink).result = .error "log sink unavailable") ∧
    (c5DeadSink ⟨.error, errorMessage "boom" "GET" "/" ((2 : ℚ) - 0) "id-6"⟩ =
        some "log sink unavailable" ∧
     (log_requests ⟨"GET", "/"⟩ "id-6" 0 1 2 ⟨2025, 1, 1, 0, 0, 0, 0⟩
         (.error "boom") c5DeadSink).result = .error "log sink unavailable") :=
  ⟨⟨rfl, (C5_logging_failure_not_swallowed ⟨"GET", "/"⟩ "id-6" 0 1 2
      ⟨2025, 1, 1, 0, 0, 0, 0⟩ ⟨200, [], .obj []⟩ "x" "x" "x" specLoggerSink).1 rfl⟩,
   ⟨rfl, rfl, (C5_logging_failure_not_swallowed ⟨"GET", "/"⟩ "id-6" 0 1 2
      ⟨2025, 1, 1, 0, 0, 0, 0⟩ ⟨200, [], .obj []⟩ "x" "log sink unavailable" "x"
      c5RaisingSink).2.1 rfl rfl⟩,
   ⟨rfl, rfl, (C5_logging_failure_not_swallowed ⟨"GET", "/"⟩ "id-6" 0 1 2
      ⟨2025, 1, 1, 0, 0, 0, 0⟩ ⟨200, [], .obj []⟩ "x" "log sink unavailable"
      "log sink unavailable" c5DeadSink).2.2.1 rfl rfl⟩,
   ⟨rfl, (C5_logging_failure_not_swallowed ⟨"GET", "/"⟩ "id-6" 0 1 2
      ⟨2025, 1, 1, 0, 0, 0, 0⟩ ⟨200, [], .obj []⟩ "boom" "x" "log sink unavailable"
      c5DeadSink).2.2.2 rfl⟩⟩

/-- C6: on normal return of the downstream handler (with the INFO logger
call returning normally), the middleware returns that response unmodified
except for the X-Request-ID header: status code and body are untouched —
so 4xx statuses pass through unrewritten — and every other header keeps its
value. -/
theorem C6_success_response_unmodified (req : Request) (rid : String)
    (start tSucc tErr : ℚ) (utcnow : DateTime) (resp : Response) (sink : LogSink)
    (hs : sink ⟨.info, infoMessage req.method req.path resp.status_code (tSucc - start) rid⟩
            = none) :
    ∃ r, (log_requests req rid start tSucc tErr utcnow (.ok resp) sink).result = .ok r ∧
      r.status_code = resp.status_code ∧
      r.body = resp.body ∧
      alistGet r.headers "X-Request-ID" = some rid ∧
      ∀ hname, hname ≠ "X-Request-ID" → alistGet r.headers hname = alistGet resp.headers hname := by
  refine ⟨{ resp with headers := alistSet resp.headers "X-Request-ID" rid }, ?_, rfl, rfl,
    alistGet_set_self _ _ _, ?_⟩
  · simp [log_requests, hs]
  · intro hname hne
    exact alistGet_set_ne _ _ _ _ hne

/-- Witness for C6 at a concrete handler-produced 404 response, showing a
routed 4xx passes through with status, body and prior headers intact. -/
theorem C6_success_response_unmodified_witness :
    specLoggerSink ⟨.info, infoMessage "GET" "/missing" 404 ((3 : ℚ) - 1) "id-4"⟩ = none ∧
    ∃ r, (log_requests ⟨"GET", "/missing"⟩ "id-4" 1 3 9 ⟨2025, 1, 1, 0, 0, 0, 0⟩
            (.ok ⟨404, [("content-type", "application/json")],
                  .obj [("detail", .s "Not Found")]⟩) specLoggerSink).result = .ok r ∧
      r.status_code = 404 ∧
      r.body = .obj [("detail", .s "Not Found")] ∧
      alistGet r.headers "X-Request-ID" = some "id-4" ∧
      ∀ hname, hname ≠ "X-Request-ID" →
        alistGet r.headers hname =
          alistGet [("content-type", "application/json")] hname :=
  ⟨rfl, C6_success_response_unmodified ⟨"GET", "/missing"⟩ "id-4" 1 3 9
    ⟨2025, 1, 1, 0, 0, 0, 0⟩
    ⟨404, [("content-type", "application/json")], .obj [("detail", .s "Not Found")]⟩
    specLoggerSink rfl⟩

/-- C7: the single log line has path-dependent content built from the same
correlation ID. On normal return it is the INFO line carrying method, path,
status code and the duration tSucc - start rendered to three decimal places;
on an unhandled failure it is the ERROR line carrying the failure message,
method, path and the duration computed the same way from the reading tErr
taken in the except branch. -/
theorem C7_log_line_content (req : Request) (rid : String) (start tSucc tErr : ℚ)
    (utcnow : DateTime) (resp : Response) (e : String) (sink : LogSink)
    (hs : ∀ l, sink l = none) :
    (log_requests req rid start tSucc tErr utcnow (.ok resp) sink).emitted =
      [⟨.info, infoMessage req.method req.path resp.status_code (tSucc - start) rid⟩] ∧
    (log_requests req rid start tSucc tErr utcnow (.error e) sink).emitted =
      [⟨.error, errorMessage e req.method req.path (tErr - start) rid⟩] := by
  constructor <;> simp [log_requests, exceptBranch, hs]

/-- Witness for C7 at a concrete request, on both paths. -/
theorem C7_log_line_content_witness :
    (∀ l : LogLine, specLoggerSink l = none) ∧
    ((log_requests ⟨"GET", "/api/v1/health"⟩ "id-5" 2 5 8 ⟨2025, 1, 1, 0, 0, 0, 0⟩
        (.ok ⟨200, [], .obj []⟩) specLoggerSink).emitted =
      [⟨.info, infoMessage "GET" "/api/v1/health" 200 ((5 : ℚ) - 2) "id-5"⟩] ∧
     (log_requests ⟨"GET", "/api/v1/health"⟩ "id-5" 2 5 8 ⟨2025, 1, 1, 0, 0, 0, 0⟩
        (.error "db down") specLoggerSink).emitted =
      [⟨.error, errorMessage "db down" "GET" "/api/v1/health" ((8 : ℚ) - 2) "id-5"⟩]) :=
  ⟨fun _ => rfl,
   C7_log_line_content ⟨"GET", "/api/v1/health"⟩ "id-5" 2 5 8 ⟨2025, 1, 1, 0, 0, 0, 0⟩
     ⟨200, [], .obj []⟩ "db down" specLoggerSink (fun _ => rfl)⟩

/-- C8: for every request falling through to the 404 handler, the response
has status 404 and a JSON body carrying a detail field, the exact requested
path string, and the isoformat rendering of the current UTC datetime, with
no request_id (correlation ID) field. -/
theorem C8_not_found_contract (req : Request) (utcnow : DateTime) :
    (not_found_handler req utcnow).status_code = 404 ∧
    ∃ b, (not_found_handler req utcnow).body = .obj b ∧
      alistGet b "detail" = some (.s "Endpoint not found") ∧
      alistGet b "path" = some (.s req.path) ∧
      alistGet b "timestamp" = some (.s utcnow.isoformat) ∧
      alistGet b "request_id" = none :=
  ⟨rfl, _, rfl, rfl, rfl, rfl, rfl⟩

/-- C9: the root endpoint returns status 200 and a JSON body with the keys
name (the configured title), version (the configured version), status equal
to operational, docs equal to /docs, health equal to /api/v1/health, and a
timestamp. -/
theorem C9_rootContract (api_title api_version : String) (utcnow : DateTime) :
    (root api_title api_version utcnow).status_code = 200 ∧
    ∃ b, (root api_title api_version utcnow).body = .obj b ∧
      alistGet b "name" = some (.s api_title) ∧
      alistGet b "version" = some (.s api_version) ∧
      alistGet b "status" = some (.s "operational") ∧
      alistGet b "docs" = some (.s "/docs") ∧
      alistGet b "health" = some (.s "/api/v1/health") ∧
      alistGet b "timestamp" = some (.s utcnow.isoformat) :=
  ⟨rfl, _, rfl, rfl, rfl, rfl, rfl, rfl, rfl⟩

end EventAuditAPI
